import Mathlib

/-!
Verification development for the solar fault detection application
(`app.py` together with its support modules).  The data model, the
office/fault lookup tables and the inference contract follow the
repository; support modules absent from the snapshot are modelled from
the specification and are marked as such in their doc comments.
-/

namespace SolarFault

/-- Kind of user-facing message emitted by the UI layer
(`st.success` / `st.error` / `st.warning` / `st.info`). -/
inductive MsgKind where
  | success
  | error
  | warning
  | info
  deriving DecidableEq

/-- A service office record (`office` dict in `app.py`:
fields `office_name`, `email`, `phone`, `address`, `working_hours`). -/
structure Office where
  office_name : String
  email : String
  phone : String
  address : String
  working_hours : String
  deriving DecidableEq

/-- Modelled from the spec: `src/office_locator.py` is not in the
snapshot.  A representative office record for the `110` postal prefix. -/
def delhiOffice : Office :=
  ⟨"Delhi Service Center", "delhi.service@solarcare.example",
   "+91-11-23456789", "12 Connaught Place, New Delhi", "Mon-Sat 9:00-18:00"⟩

/-- Modelled from the spec: a representative office record for the
`400` postal prefix. -/
def mumbaiOffice : Office :=
  ⟨"Mumbai Service Center", "mumbai.service@solarcare.example",
   "+91-22-34567890", "7 Marine Drive, Mumbai", "Mon-Sat 9:00-18:00"⟩

/-- Modelled from the spec: a representative office record for the
`560` postal prefix. -/
def bangaloreOffice : Office :=
  ⟨"Bangalore Service Center", "bangalore.service@solarcare.example",
   "+91-80-45678901", "3 MG Road, Bangalore", "Mon-Sat 9:00-18:00"⟩

/-- Modelled from the spec: the static office directory, a table of
office records keyed by postal-code prefixes. -/
def OFFICE_DB : List (String × Office) :=
  [("110", delhiOffice), ("400", mumbaiOffice), ("560", bangaloreOffice)]

/-- Strip leading and trailing whitespace from a character list
(the `trim` part of postal-code normalization). -/
def trimList (l : List Char) : List Char :=
  ((l.dropWhile Char.isWhitespace).reverse.dropWhile Char.isWhitespace).reverse

/-- Modelled from the spec: `src/office_locator.py` is not in the
snapshot.  `find_nearest_office` normalizes the entered code (trim,
case) and selects the office whose postal-code prefix is the longest
one matching the normalized code; absent when no prefix matches. -/
def find_nearest_office (code : String) : Option Office :=
  let cs : List Char := (trimList code.data).map Char.toUpper
  let cands := OFFICE_DB.filter (fun e => e.1.data.isPrefixOf cs)
  (cands.foldl
    (fun best e =>
      match best with
      | none => some e
      | some b => if b.1.length < e.1.length then some e else some b)
    none).map (fun e => e.2)

/-- Fault knowledge-base record.  Fields are optional, mirroring the
Python dict lookups `fault_info.get(..., default)` in `app.py`. -/
structure FaultInfo where
  description : Option String
  severity : Option String
  symptoms : Option (List String)
  repair_steps : Option (List String)
  prevention : Option (List String)
  cost_estimate : Option String
  deriving DecidableEq

/-- The default/empty fault record returned for an unknown label. -/
def emptyFaultInfo : FaultInfo := ⟨none, none, none, none, none, none⟩

/-- Modelled from the spec: `src/fault_info.py` is not in the snapshot.
Static mapping from fault category to its knowledge-base record, one
entry per classifier label (the seven fault categories listed in the
sidebar plus the healthy category). -/
def FAULT_DB : List (String × FaultInfo) :=
  [ ("Healthy Panel",
      ⟨some "No faults detected. The panel appears to be operating normally.",
       none, none, some ["No repair needed."],
       some ["Schedule periodic inspections."], none⟩),
    ("Microcracks",
      ⟨some "Fine cracks in the cell material that reduce output over time.",
       some "Medium", some ["Dark branching lines in the EL image"],
       some ["Inspect the affected cells.", "Replace the damaged module if output drops."],
       some ["Avoid mechanical stress during transport and installation."],
       some "Rs. 5,000 - 15,000"⟩),
    ("Hot Spots",
      ⟨some "Localized overheating caused by shading or cell damage.",
       some "High", some ["Bright spots in thermal imaging"],
       some ["Remove shading sources.", "Replace the affected module."],
       some ["Keep the array free of debris and shading."],
       some "Rs. 10,000 - 25,000"⟩),
    ("Snail Trails",
      ⟨some "Discoloration trails caused by moisture ingress and microcracks.",
       some "Low", none,
       some ["Monitor output.", "Replace the module if degradation accelerates."],
       some ["Use modules with moisture-resistant encapsulant."], none⟩),
    ("Cell Breakage",
      ⟨some "Broken cells from mechanical impact.",
       some "High", some ["Visible dark inactive regions"],
       some ["Replace the broken module."],
       some ["Handle modules with care."],
       some "Rs. 15,000 - 30,000"⟩),
    ("Delamination",
      ⟨some "Separation of encapsulant layers allowing moisture ingress.",
       some "Medium", none,
       some ["Replace the delaminated module."],
       some ["Choose certified modules with quality lamination."], none⟩),
    ("Bypass Diode Failure",
      ⟨some "Failed bypass diode causing string underperformance.",
       some "Medium", none,
       some ["Test the junction box diodes.", "Replace failed diodes."],
       some ["Use surge protection."], some "Rs. 2,000 - 8,000"⟩),
    ("PID (Potential Induced Degradation)",
      ⟨some "Performance loss from voltage-induced ion migration.",
       some "High", none,
       some ["Install a PID recovery device.", "Improve system grounding."],
       some ["Use PID-resistant modules."], some "Rs. 8,000 - 20,000"⟩) ]

/-- Modelled from the spec: `src/fault_info.py` is not in the snapshot.
`get_fault_info` is a pure lookup in the immutable mapping, returning a
default/empty record when the label is outside the known set. -/
def get_fault_info (ft : String) : FaultInfo :=
  match FAULT_DB.find? (fun e => e.1 == ft) with
  | some e => e.2
  | none => emptyFaultInfo

/-- Round a rational to the nearest integer with ties to even
(the rounding used by Python fixed-point string formatting, idealized
over exact rationals). -/
def rhe (x : ℚ) : ℤ :=
  let f : ℤ := x.num.fdiv x.den
  let q : ℤ := x.num - f * (x.den : ℤ)
  if 2 * q < (x.den : ℤ) then f
  else if (x.den : ℤ) < 2 * q then f + 1
  else if f % 2 = 0 then f else f + 1

/-- Render a rational with exactly one digit after the decimal point,
as Python `:.1f` formatting does (idealized over exact rationals). -/
def formatFixed1 (x : ℚ) : String :=
  let n : ℤ := rhe (mkRat (x.num * 10) x.den)
  if n < 0 then
    "-" ++ toString (n.natAbs / 10) ++ "." ++ toString (n.natAbs % 10)
  else
    toString (n.toNat / 10) ++ "." ++ toString (n.toNat % 10)

/-- The confidence field as displayed: `confidence * 100` rendered
with one decimal digit (the Python `f"{confidence*100:.1f}"`). -/
def pct1 (conf : ℚ) : String := formatFixed1 (mkRat (conf.num * 100) conf.den)

/-- Does the pattern occur as a prefix of some suffix of the subject? -/
def strContainsAux (t : List Char) : List Char → Bool
  | [] => t.isPrefixOf []
  | c :: rest => t.isPrefixOf (c :: rest) || strContainsAux t rest

/-- Substring test: `strContains s t` holds when `t` occurs
contiguously inside `s`. -/
def strContains (s t : String) : Bool :=
  strContainsAux t.data s.data

/-- Severity color-coding of the detection result
(`app.py` lines 86-93): green for a healthy panel, red for high
severity, yellow for medium severity, blue otherwise. -/
def detectionColor (ft : String) (fi : FaultInfo) : MsgKind :=
  if ft = "Healthy Panel" then MsgKind.success
  else if fi.severity = some "High" then MsgKind.error
  else if fi.severity = some "Medium" then MsgKind.warning
  else MsgKind.info

/-- The displayed detection result (`app.py` lines 85-93): a colored
message holding the fault type and the confidence as a percentage with
one decimal place. -/
def detectionDisplay (ft : String) (conf : ℚ) : MsgKind × String :=
  (detectionColor ft (get_fault_info ft),
   "**" ++ ft ++ "** (Confidence: " ++ pct1 conf ++ "%" ++ ")")

/-- The fault description shown under the detection result
(`app.py` line 98). -/
def faultDescriptionShown (ft : String) : String :=
  (get_fault_info ft).description.getD "No description available."

/-- `user_details` part of the generated report (`app.py` lines 196-202). -/
structure UserDetails where
  name : String
  phone : String
  email : String
  pincode : String
  panel_location : String
  deriving DecidableEq

/-- `fault_detection` part of the generated report (`app.py` lines 203-208). -/
structure FaultDetection where
  fault_type : String
  confidence : String
  severity : String
  description : String
  deriving DecidableEq

/-- `office_details` part of the generated report (`app.py` lines 209-214). -/
structure OfficeDetails where
  office_name : String
  email : String
  phone : String
  address : String
  deriving DecidableEq

/-- The structured fault report (`report` dict, `app.py` lines 194-216). -/
structure Report where
  timestamp : String
  user_details : UserDetails
  fault_detection : FaultDetection
  office_details : OfficeDetails
  additional_notes : String
  deriving DecidableEq

/-- Build the structured report record (`app.py` lines 194-216). -/
def buildReport (ts ft : String) (conf : ℚ) (office : Office)
    (pin name phone email loc notes : String) : Report :=
  ⟨ts,
   ⟨name, phone, email, pin, loc⟩,
   ⟨ft, pct1 conf ++ "%", (get_fault_info ft).severity.getD "Unknown",
    (get_fault_info ft).description.getD ""⟩,
   ⟨office.office_name, office.email, office.phone, office.address⟩,
   notes⟩

/-- The plain-text report rendering (`report_text`, `app.py` lines 226-249). -/
def report_text (ts ft : String) (conf : ℚ) (office : Office)
    (pin name phone email loc notes : String) : String :=
  "FAULT DETECTION REPORT\n======================\n\nDate: " ++ ts ++
  "\nUser: " ++ name ++
  "\nPhone: " ++ phone ++
  "\nEmail: " ++ email ++
  "\nPincode: " ++ pin ++
  "\nLocation: " ++ loc ++
  "\n\nFAULT DETECTED:\n- Type: " ++ ft ++
  "\n- Confidence: " ++ pct1 conf ++ "%" ++
  "\n- Severity: " ++ (get_fault_info ft).severity.getD "Unknown" ++
  "\n- Description: " ++ (get_fault_info ft).description.getD "" ++
  "\n\nSERVICE OFFICE:\n- Name: " ++ office.office_name ++
  "\n- Address: " ++ office.address ++
  "\n- Phone: " ++ office.phone ++
  "\n- Email: " ++ office.email ++
  "\n\nAdditional Notes: " ++ notes ++ "\n"

/-- Session state: the `fault_report` and `report_text` keys of
`st.session_state` (set together at `app.py` lines 297-299). -/
structure SessionState where
  fault_report : Option Report
  report_text : Option String
  deriving DecidableEq

/-- Outcome of one form submission: the new session state, the
messages shown, and the report produced (if any). -/
structure SubmitOutcome where
  state : SessionState
  messages : List (MsgKind × String)
  report : Option Report
  deriving DecidableEq

/-- The fault-report form submission handler (`app.py` lines 191-301):
if name, phone and email are all non-empty the report record and its
text rendering are built and stored in the session, otherwise a
validation error is shown and nothing changes. -/
def submitReport (ts ft : String) (conf : ℚ) (office : Office)
    (pin name phone email loc notes : String) (s : SessionState) : SubmitOutcome :=
  if name ≠ "" ∧ phone ≠ "" ∧ email ≠ "" then
    let r := buildReport ts ft conf office pin name phone email loc notes
    let txt := report_text ts ft conf office pin name phone email loc notes
    ⟨⟨some r, some txt⟩,
     [(MsgKind.success, "✅ Report Generated Successfully!")],
     some r⟩
  else
    ⟨s, [(MsgKind.error, "Please fill in all required fields (marked with *)")], none⟩

/-- Sidebar download button (`app.py` lines 50-57): offered only when a
`fault_report` value exists in the session state; its payload is the
stored `report_text` (empty string when absent). -/
def sidebarDownload (s : SessionState) : Option String :=
  match s.fault_report with
  | some _ => some (s.report_text.getD "")
  | none => none

/-- The inputs of one press of the report form submit button. -/
structure SubmitEvent where
  ts : String
  ft : String
  conf : ℚ
  office : Office
  pin : String
  name : String
  phone : String
  email : String
  loc : String
  notes : String
  deriving DecidableEq

/-- A submit event passes validation when all required fields are
non-empty. -/
def eventValid (e : SubmitEvent) : Prop :=
  e.name ≠ "" ∧ e.phone ≠ "" ∧ e.email ≠ ""

instance (e : SubmitEvent) : Decidable (eventValid e) := by
  unfold eventValid; infer_instance

/-- The text rendering a submit event would produce. -/
def eventText (e : SubmitEvent) : String :=
  report_text e.ts e.ft e.conf e.office e.pin e.name e.phone e.email e.loc e.notes

/-- Apply one submit event to the session state. -/
def stepSession (s : SessionState) (e : SubmitEvent) : SessionState :=
  (submitReport e.ts e.ft e.conf e.office e.pin e.name e.phone e.email e.loc e.notes s).state

/-- Fresh session: no report stored. -/
def initSession : SessionState := ⟨none, none⟩

/-- Run a session through a list of submit events. -/
def runSession (evs : List SubmitEvent) : SessionState :=
  evs.foldl stepSession initSession

/-- The text rendering of the most recent successfully validated
submit event, if any. -/
def lastSuccessText : List SubmitEvent → Option String
  | [] => none
  | e :: evs =>
    match lastSuccessText evs with
    | some t => some t
    | none => if eventValid e then some (eventText e) else none

/-- Output of the service-office section of the page. -/
structure OfficeOut where
  officeShown : Option Office
  formAvailable : Bool
  messages : List (MsgKind × String)
  deriving DecidableEq

/-- The service-office section (`app.py` lines 155-305): when
triggered with a non-empty pincode, looks up the office; on a match it
shows the office and makes the report form available for non-healthy
faults, otherwise it shows a non-error notice. -/
def officeSection (ft : String) (findBtn : Bool) (pin : String) : OfficeOut :=
  if findBtn = true ∨ (pin ≠ "" ∧ 4 ≤ pin.length) then
    if pin ≠ "" then
      match find_nearest_office pin with
      | some o =>
        ⟨some o, decide (ft ≠ "Healthy Panel"), []⟩
      | none =>
        ⟨none, false,
         [(MsgKind.warning,
           "No service office found for this pincode. Please contact our main office.")]⟩
    else
      ⟨none, false,
       [(MsgKind.info, "Please enter a pincode to find the nearest service office.")]⟩
  else
    ⟨none, false, []⟩

/-- Modelled from the spec: `src/predict.py` is not in the snapshot.
The fixed label set of the classifier: the healthy category plus the
seven fault categories listed in the sidebar, eight classes in all
(`NUM_CLASSES = 8` in `create_model.py`). -/
def CLASS_NAMES : List String :=
  [ "Healthy Panel", "Microcracks", "Hot Spots", "Snail Trails",
    "Cell Breakage", "Delamination", "Bypass Diode Failure",
    "PID (Potential Induced Degradation)" ]

/-- All eight class indices in first-declared order. -/
def IDX8 : List (Fin 8) := [0, 1, 2, 3, 4, 5, 6, 7]

/-- Modelled from the spec: the normalized exponential (softmax) that
turns the raw network outputs into a probability distribution over the
fixed label set (real-valued idealization of the float computation). -/
noncomputable def softmax (z : Fin 8 → ℝ) (i : Fin 8) : ℝ :=
  Real.exp (z i) / ∑ j, Real.exp (z j)

/-- The first (lowest) class index at which the raw score vector
attains its maximum: the argmax with ties broken by first-declared
label order. -/
def argmaxIdx (z : Fin 8 → ℚ) : Fin 8 :=
  match IDX8.find? (fun j => decide (∀ k, z k ≤ z j)) with
  | some j => j
  | none => 0

/-- The prediction result (`result` dict returned by `predict`):
the label, its probability, and the full distribution. -/
structure FaultPrediction where
  fault_type : String
  confidence : ℝ
  probabilities : Fin 8 → ℝ

/-- Modelled from the spec: `src/predict.py` is not in the snapshot.
`predict` applies the network (whose raw outputs on the preprocessed
image are the argument `z`), converts them to a distribution via
softmax, and returns the argmax label together with its probability
and the full distribution. -/
noncomputable def predict (z : Fin 8 → ℚ) : FaultPrediction :=
  let p := softmax (fun i => ((z i : ℚ) : ℝ))
  let i := argmaxIdx z
  ⟨CLASS_NAMES.getD i.val "", p i, p⟩

/-- `i` is the position of the maximum of `p`, with ties broken
towards the first-declared index. -/
def IsFirstArgmax (p : Fin 8 → ℝ) (i : Fin 8) : Prop :=
  (∀ j, p j ≤ p i) ∧ ∀ j, j < i → p j < p i

/-! ### Substring lemmas -/

theorem strContainsAux_of_eq_append (t : List Char) :
    ∀ (a l b : List Char), l = a ++ t ++ b → strContainsAux t l = true := by
  intro a
  induction a with
  | nil =>
    intro l b h
    simp only [List.nil_append] at h
    cases hl : l with
    | nil =>
      rw [hl] at h
      rcases List.append_eq_nil.mp h.symm with ⟨h1, h2⟩
      simp [strContainsAux, h1]
    | cons c rest =>
      have hpre : t <+: l := ⟨b, h.symm⟩
      rw [hl] at hpre
      simp [strContainsAux, List.isPrefixOf_iff_prefix, hpre]
  | cons c a ih =>
    intro l b h
    cases hl : l with
    | nil => rw [hl] at h; simp at h
    | cons d rest =>
      rw [hl] at h
      have hd : d = c ∧ rest = a ++ t ++ b := by
        simpa using h
      have hrest := ih rest b hd.2
      simp [strContainsAux, hrest]

theorem strContains_of_data (s t : String)
    (h : ∃ a b : List Char, s.data = a ++ t.data ++ b) : strContains s t = true := by
  obtain ⟨a, b, hab⟩ := h
  exact strContainsAux_of_eq_append t.data a s.data b hab

/-- Containment survives extending the subject on the right. -/
theorem strContains_appR (s u t : String) (h : strContains s t = true) :
    strContains (s ++ u) t = true := by
  unfold strContains at h ⊢
  rw [String.data_append]
  revert h
  generalize s.data = l
  induction l with
  | nil =>
    intro h
    cases ht : t.data with
    | nil =>
      cases hu : u.data with
      | nil => simp [strContainsAux, ht]
      | cons c rest => simp [strContainsAux, ht]
    | cons c rest => rw [ht] at h; simp [strContainsAux] at h
  | cons c l ih =>
    intro h
    simp only [strContainsAux, Bool.or_eq_true] at h
    rcases h with h | h
    · have : t.data <+: c :: l := List.isPrefixOf_iff_prefix.mp h
      obtain ⟨w, hw⟩ := this
      have : t.data <+: (c :: l) ++ u.data := ⟨w ++ u.data, by rw [← hw]; simp⟩
      simp only [List.cons_append, strContainsAux, Bool.or_eq_true]
      exact Or.inl (List.isPrefixOf_iff_prefix.mpr this)
    · simp only [List.cons_append, strContainsAux, Bool.or_eq_true]
      exact Or.inr (ih h)

/-- A string contains its final segment. -/
theorem strContains_last (p t : String) : strContains (p ++ t) t = true :=
  strContains_of_data _ _ ⟨p.data, [], by simp⟩

/-- A string contains the concatenation of its last two segments. -/
theorem strContains_pair (p a b : String) :
    strContains ((p ++ a) ++ b) (a ++ b) = true :=
  strContains_of_data _ _ ⟨p.data, [], by simp⟩

/-! ### Claims about report assembly and validation -/

/-- Claim C1: if any of the name, phone, or email fields is empty, the
form submission produces no report (the session state is unchanged, so
neither the structured record nor the plain-text rendering is stored)
and only the validation error message is shown. -/
theorem submitReport_missing_field_validation (ts ft : String) (conf : ℚ)
    (office : Office) (pin name phone email loc notes : String) (s : SessionState)
    (h : name = "" ∨ phone = "" ∨ email = "") :
    submitReport ts ft conf office pin name phone email loc notes s =
      ⟨s, [(MsgKind.error, "Please fill in all required fields (marked with *)")], none⟩ := by
  unfold submitReport
  rw [if_neg]
  tauto

theorem submitReport_missing_field_validation_witness :
    ("" = "" ∨ "+91-12345" = "" ∨ "a@b.example" = "") ∧
    submitReport "2025-01-01 10:00:00" "Hot Spots" (mkRat 9 10) delhiOffice
        "110001" "" "+91-12345" "a@b.example" "Roof" "" ⟨none, none⟩ =
      ⟨⟨none, none⟩,
       [(MsgKind.error, "Please fill in all required fields (marked with *)")],
       none⟩ :=
  ⟨Or.inl rfl,
   submitReport_missing_field_validation "2025-01-01 10:00:00" "Hot Spots"
     (mkRat 9 10) delhiOffice "110001" "" "+91-12345" "a@b.example" "Roof" ""
     ⟨none, none⟩ (Or.inl rfl)⟩

/-- Claim C2: a successful submission stores the plain-text rendering,
and that rendering contains the fault label, the confidence formatted
as a percentage with one decimal place, and the matched office's email
and phone. -/
theorem report_text_contains_required_fields (ts ft : String) (conf : ℚ)
    (office : Office) (pin name phone email loc notes : String) (s : SessionState)
    (h1 : name ≠ "") (h2 : phone ≠ "") (h3 : email ≠ "") :
    (submitReport ts ft conf office pin name phone email loc notes s).state.report_text
        = some (report_text ts ft conf office pin name phone email loc notes) ∧
    strContains (report_text ts ft conf office pin name phone email loc notes) ft = true ∧
    strContains (report_text ts ft conf office pin name phone email loc notes)
        (pct1 conf ++ "%") = true ∧
    strContains (report_text ts ft conf office pin name phone email loc notes)
        office.email = true ∧
    strContains (report_text ts ft conf office pin name phone email loc notes)
        office.phone = true := by
  refine ⟨?_, ?_, ?_, ?_, ?_⟩
  · unfold submitReport
    rw [if_pos ⟨h1, h2, h3⟩]
  · unfold report_text
    iterate 18 apply strContains_appR
    exact strContains_last _ _
  · unfold report_text
    iterate 15 apply strContains_appR
    exact strContains_pair _ _ _
  · unfold report_text
    iterate 3 apply strContains_appR
    exact strContains_last _ _
  · unfold report_text
    iterate 5 apply strContains_appR
    exact strContains_last _ _

theorem report_text_contains_required_fields_witness :
    ("Jo" ≠ "") ∧ ("+91-12345" ≠ "") ∧ ("a@b.example" ≠ "") ∧
    ((submitReport "2025-01-01 10:00:00" "Hot Spots" (mkRat 857 1000) delhiOffice
        "110001" "Jo" "+91-12345" "a@b.example" "Roof" "none" ⟨none, none⟩).state.report_text
        = some (report_text "2025-01-01 10:00:00" "Hot Spots" (mkRat 857 1000)
            delhiOffice "110001" "Jo" "+91-12345" "a@b.example" "Roof" "none") ∧
     strContains (report_text "2025-01-01 10:00:00" "Hot Spots" (mkRat 857 1000)
        delhiOffice "110001" "Jo" "+91-12345" "a@b.example" "Roof" "none") "Hot Spots" = true ∧
     strContains (report_text "2025-01-01 10:00:00" "Hot Spots" (mkRat 857 1000)
        delhiOffice "110001" "Jo" "+91-12345" "a@b.example" "Roof" "none")
        (pct1 (mkRat 857 1000) ++ "%") = true ∧
     strContains (report_text "2025-01-01 10:00:00" "Hot Spots" (mkRat 857 1000)
        delhiOffice "110001" "Jo" "+91-12345" "a@b.example" "Roof" "none")
        delhiOffice.email = true ∧
     strContains (report_text "2025-01-01 10:00:00" "Hot Spots" (mkRat 857 1000)
        delhiOffice "110001" "Jo" "+91-12345" "a@b.example" "Roof" "none")
        delhiOffice.phone = true) :=
  ⟨by decide, by decide, by decide,
   report_text_contains_required_fields "2025-01-01 10:00:00" "Hot Spots"
     (mkRat 857 1000) delhiOffice "110001" "Jo" "+91-12345" "a@b.example" "Roof"
     "none" ⟨none, none⟩ (by decide) (by decide) (by decide)⟩

/-- Claim C3: the fault-description text shown in the result and the
one embedded in the report are pure functions of the predicted label:
two runs with the same label (whatever the images, hence whatever the
confidences, timestamps, offices or form inputs) show and embed the
same description. -/
theorem fault_description_pure_in_label (ft1 ft2 : String) (conf1 conf2 : ℚ)
    (ts1 ts2 : String) (o1 o2 : Office)
    (pin1 pin2 n1 n2 p1 p2 e1 e2 l1 l2 a1 a2 : String)
    (h : ft1 = ft2) :
    faultDescriptionShown ft1 = faultDescriptionShown ft2 ∧
    (buildReport ts1 ft1 conf1 o1 pin1 n1 p1 e1 l1 a1).fault_detection.description =
      (buildReport ts2 ft2 conf2 o2 pin2 n2 p2 e2 l2 a2).fault_detection.description := by
  subst h
  exact ⟨rfl, rfl⟩

theorem fault_description_pure_in_label_witness :
    ("Microcracks" = "Microcracks") ∧
    (faultDescriptionShown "Microcracks" = faultDescriptionShown "Microcracks" ∧
     (buildReport "t1" "Microcracks" (mkRat 1 10) delhiOffice "110001" "A" "1"
        "a@b.example" "L1" "x").fault_detection.description =
       (buildReport "t2" "Microcracks" (mkRat 9 10) mumbaiOffice "400001" "B" "2"
        "c@d.example" "L2" "y").fault_detection.description) :=
  ⟨rfl,
   fault_description_pure_in_label "Microcracks" "Microcracks" (mkRat 1 10)
     (mkRat 9 10) "t1" "t2" delhiOffice mumbaiOffice "110001" "400001" "A" "B"
     "1" "2" "a@b.example" "c@d.example" "L1" "L2" "x" "y" rfl⟩

/-- Claim C4: when the office section is triggered with a non-empty
pincode that matches no office, the user sees exactly the non-error
"no office found" notice, and neither office details nor the report
form are produced. -/
theorem officeSection_no_match_notice (ft : String) (findBtn : Bool) (pin : String)
    (htrig : findBtn = true ∨ (pin ≠ "" ∧ 4 ≤ pin.length))
    (hpin : pin ≠ "")
    (hnone : find_nearest_office pin = none) :
    officeSection ft findBtn pin =
      ⟨none, false,
       [(MsgKind.warning,
         "No service office found for this pincode. Please contact our main office.")]⟩ ∧
    MsgKind.warning ≠ MsgKind.error := by
  constructor
  · unfold officeSection
    rw [if_pos htrig, if_pos hpin, hnone]
  · decide

theorem officeSection_no_match_notice_witness :
    (true = true ∨ ("000000" ≠ "" ∧ 4 ≤ "000000".length)) ∧
    ("000000" ≠ "") ∧
    (find_nearest_office "000000" = none) ∧
    (officeSection "Microcracks" true "000000" =
      ⟨none, false,
       [(MsgKind.warning,
         "No service office found for this pincode. Please contact our main office.")]⟩ ∧
     MsgKind.warning ≠ MsgKind.error) :=
  ⟨Or.inl rfl, by decide, by decide,
   officeSection_no_match_notice "Microcracks" true "000000" (Or.inl rfl)
     (by decide) (by decide)⟩

/-- Claim C7: office resolution is a longest-prefix match over the
static table: pincodes sharing the `110` prefix resolve to the same
office record, and a pincode matching no table prefix resolves to
absent. -/
theorem find_nearest_office_examples :
    find_nearest_office "110001" = some delhiOffice ∧
    find_nearest_office "110099" = some delhiOffice ∧
    find_nearest_office "000000" = none := by
  decide

/-- Claim C9: a "Healthy Panel" prediction never makes the report form
(and with it report assembly and the contact-the-office actions)
available, whatever the pincode entry. -/
theorem healthy_panel_no_report_form (findBtn : Bool) (pin : String) :
    (officeSection "Healthy Panel" findBtn pin).formAvailable = false := by
  unfold officeSection
  by_cases h1 : findBtn = true ∨ (pin ≠ "" ∧ 4 ≤ pin.length)
  · rw [if_pos h1]
    by_cases h2 : pin ≠ ""
    · rw [if_pos h2]
      cases h3 : find_nearest_office pin with
      | some o => simp
      | none => rfl
    · rw [if_neg h2]
  · rw [if_neg h1]

/-- Claim C8 counterexample: two runs on the same fault with different
confidences show different messages (the confidence is displayed) yet
the very same color: the color-coding is not driven by the confidence
value, refuting the claim that the confidence is used to color-code
the displayed result. -/
theorem detectionColor_ignores_confidence_cex :
    (detectionDisplay "Hot Spots" (mkRat 1 10)).2 ≠
      (detectionDisplay "Hot Spots" (mkRat 9 10)).2 ∧
    (detectionDisplay "Hot Spots" (mkRat 1 10)).1 =
      (detectionDisplay "Hot Spots" (mkRat 9 10)).1 := by
  decide

/-- Claim C8 (amended): the confidence returned by predict is displayed
to the user (as a one-decimal percentage inside the result message),
while the severity color-coding of the displayed result is determined
by the predicted fault type and its severity record alone, independent
of the confidence value. -/
theorem confidence_displayed_color_from_severity (ft : String) (c c' : ℚ) :
    strContains (detectionDisplay ft c).2 (pct1 c ++ "%") = true ∧
    (detectionDisplay ft c).1 = detectionColor ft (get_fault_info ft) ∧
    (detectionDisplay ft c).1 = (detectionDisplay ft c').1 := by
  refine ⟨?_, rfl, rfl⟩
  unfold detectionDisplay
  iterate 1 apply strContains_appR
  exact strContains_pair _ _ _

/-! ### Claim about the download button and the session state -/

theorem sidebarDownload_step (s : SessionState) (e : SubmitEvent) :
    sidebarDownload (stepSession s e) =
      if eventValid e then some (eventText e) else sidebarDownload s := by
  by_cases h : eventValid e
  · rw [if_pos h]
    unfold eventValid at h
    unfold stepSession submitReport
    rw [if_pos h]
    rfl
  · rw [if_neg h]
    unfold eventValid at h
    unfold stepSession submitReport
    rw [if_neg h]

theorem sidebarDownload_foldl (evs : List SubmitEvent) :
    ∀ s : SessionState,
      sidebarDownload (List.foldl stepSession s evs) =
        match lastSuccessText evs with
        | some t => some t
        | none => sidebarDownload s := by
  induction evs with
  | nil => intro s; rfl
  | cons e evs ih =>
    intro s
    rw [List.foldl_cons, ih (stepSession s e), sidebarDownload_step]
    simp only [lastSuccessText]
    cases hrest : lastSuccessText evs with
    | some t => rfl
    | none =>
      by_cases h : eventValid e
      · rw [if_pos h, if_pos h]
      · rw [if_neg h, if_neg h]

/-- Claim C10: the sidebar offers the report download exactly when a
report has been assembled during the session, and the downloaded
content is the plain-text rendering of the most recently assembled
report. -/
theorem download_matches_last_assembled_report (evs : List SubmitEvent) :
    sidebarDownload (runSession evs) = lastSuccessText evs := by
  unfold runSession
  rw [sidebarDownload_foldl evs initSession]
  cases lastSuccessText evs with
  | some t => rfl
  | none => rfl

/-! ### Claims about the classifier contract -/

theorem mem_IDX8 (x : Fin 8) : x ∈ IDX8 := by
  fin_cases x <;> decide

theorem IDX8_pairwise : IDX8.Pairwise (· < ·) := by decide

/-- A first satisfying element found by `find?` in a strictly
increasing list falsifies the predicate at every smaller element. -/
theorem find?_min_sorted (p : Fin 8 → Bool) :
    ∀ (l : List (Fin 8)), l.Pairwise (· < ·) → ∀ a, l.find? p = some a →
      ∀ b, b ∈ l → b < a → p b = false := by
  intro l
  induction l with
  | nil => intro _ a ha; simp at ha
  | cons x t ih =>
    intro hp a hfind b hb hba
    rcases List.pairwise_cons.mp hp with ⟨hx, ht⟩
    by_cases hpx : p x = true
    · rw [List.find?_cons_of_pos t hpx] at hfind
      have hax : a = x := by injection hfind with h; exact h.symm
      subst hax
      rcases List.mem_cons.mp hb with hbx | hbt
      · subst hbx; exact absurd hba (lt_irrefl b)
      · exact absurd hba (not_lt_of_gt (hx b hbt))
    · rw [List.find?_cons_of_neg t hpx] at hfind
      rcases List.mem_cons.mp hb with hbx | hbt
      · subst hbx; exact Bool.eq_false_iff.mpr hpx
      · exact ih ht a hfind b hbt hba

theorem argmaxIdx_le (z : Fin 8 → ℚ) : ∀ k, z k ≤ z (argmaxIdx z) := by
  unfold argmaxIdx
  cases hfind : IDX8.find? (fun j => decide (∀ k, z k ≤ z j)) with
  | some j =>
    intro k
    have hj := List.find?_some hfind
    rw [decide_eq_true_eq] at hj
    exact hj k
  | none =>
    exfalso
    obtain ⟨j0, hj0⟩ := Finite.exists_max z
    have := List.find?_eq_none.mp hfind j0 (mem_IDX8 j0)
    rw [decide_eq_true_eq] at this
    exact this hj0

theorem argmaxIdx_first (z : Fin 8 → ℚ) :
    ∀ j, j < argmaxIdx z → z j < z (argmaxIdx z) := by
  have hle := argmaxIdx_le z
  revert hle
  unfold argmaxIdx
  cases hfind : IDX8.find? (fun j => decide (∀ k, z k ≤ z j)) with
  | some a =>
    intro hle j hja
    have hfalse :=
      find?_min_sorted (fun j => decide (∀ k, z k ≤ z j)) IDX8 IDX8_pairwise a
        hfind j (mem_IDX8 j) hja
    rw [decide_eq_false_iff_not] at hfalse
    push_neg at hfalse
    obtain ⟨k, hk⟩ := hfalse
    exact lt_of_lt_of_le hk (hle k)
  | none =>
    intro hle j hj0
    exfalso
    obtain ⟨j0, hj0max⟩ := Finite.exists_max z
    have := List.find?_eq_none.mp hfind j0 (mem_IDX8 j0)
    rw [decide_eq_true_eq] at this
    exact this hj0max

theorem sumExp_pos (z : Fin 8 → ℝ) : 0 < ∑ j, Real.exp (z j) :=
  Finset.sum_pos (fun j _ => Real.exp_pos (z j)) ⟨0, Finset.mem_univ 0⟩

theorem softmax_le_iff (z : Fin 8 → ℝ) (a b : Fin 8) :
    softmax z a ≤ softmax z b ↔ z a ≤ z b := by
  unfold softmax
  rw [div_le_div_iff_of_pos_right (sumExp_pos z)]
  exact Real.exp_le_exp

theorem softmax_lt_iff (z : Fin 8 → ℝ) (a b : Fin 8) :
    softmax z a < softmax z b ↔ z a < z b := by
  unfold softmax
  rw [div_lt_div_iff_of_pos_right (sumExp_pos z)]
  exact Real.exp_lt_exp

/-- Claim C6: for every raw output vector, the distribution returned by
the softmax stage has non-negative entries that sum to exactly 1 (in
the idealized real-number model of the floating-point computation). -/
theorem softmax_is_distribution (z : Fin 8 → ℝ) :
    (∀ i, 0 ≤ softmax z i) ∧ (∑ i, softmax z i) = 1 := by
  constructor
  · intro i
    exact div_nonneg (Real.exp_pos (z i)).le (sumExp_pos z).le
  · unfold softmax
    rw [← Finset.sum_div]
    exact div_self (sumExp_pos z).ne'

/-- Claim C5: the label `predict` returns is the one at `argmaxIdx`,
its confidence is the probability the returned distribution assigns
there, and `argmaxIdx` is the argmax of that distribution with ties
broken by first-declared label order. -/
theorem predict_label_is_first_argmax (z : Fin 8 → ℚ) :
    (predict z).fault_type = CLASS_NAMES.getD (argmaxIdx z).val "" ∧
    (predict z).confidence = (predict z).probabilities (argmaxIdx z) ∧
    IsFirstArgmax (predict z).probabilities (argmaxIdx z) := by
  refine ⟨rfl, rfl, ?_, ?_⟩
  · intro j
    show softmax (fun i => ((z i : ℚ) : ℝ)) j ≤ softmax (fun i => ((z i : ℚ) : ℝ)) (argmaxIdx z)
    rw [softmax_le_iff]
    exact_mod_cast argmaxIdx_le z j
  · intro j hj
    show softmax (fun i => ((z i : ℚ) : ℝ)) j < softmax (fun i => ((z i : ℚ) : ℝ)) (argmaxIdx z)
    rw [softmax_lt_iff]
    exact_mod_cast argmaxIdx_first z j hj

end SolarFault
